import Mathlib

/-!
Verification of the daemon-admin backend (remote systemd management over SSH).

This file gives a shallow embedding of the functional core of the repository:

* `app/services/ssh_manager.py` — cron-to-OnCalendar conversion, systemd
  unit/timer file synthesis, service creation with rollback, service control,
  discovery, and override-content retrieval;
* `app/services/service_service.py` — the reconciliation pass of
  `ServiceService.discover_services` and the policy gate of
  `ServiceService.control_service`;
* `app/models/service.py` — the `Service` record and `Service.update_status`;
* `app/schemas/service.py` — the `create_timer` validator.

Remote execution is modelled by an oracle `exec : String → CmdResult` giving
the exit status / stdout / stderr of each issued command line, plus a boolean
for whether the SSH session could be acquired (exceptions raised while
acquiring a connection are caught by each operation's outer handler in the
source).  Python truthiness of optional strings/lists is modelled by
`Option`/list emptiness exactly where the source tests truthiness; dictionary
`.get(key, default)` with an always-present key is modelled by
`Option.getD`.  Timestamps are abstracted to `Nat`.  Python string helpers
(`strip`, whitespace `split`, `replace`, `int`) are re-implemented at the
character level so every definition evaluates inside the kernel.
-/

deriving instance DecidableEq for Except

namespace DaemonAdmin

/-- Result of running one remote command: exit-ok flag, stdout, stderr
(the `invoke.Result` triple consumed by the source). -/
structure CmdResult where
  ok : Bool
  stdout : String := ""
  stderr : String := ""
  deriving DecidableEq, Repr

/-- Worker for `pySplitWs`: accumulate the current token (reversed) and the
finished tokens (reversed). -/
def pySplitWsAux (cur : List Char) (acc : List String) : List Char → List String
  | [] => if cur.isEmpty then acc.reverse else (String.mk cur.reverse :: acc).reverse
  | c :: cs =>
    if c.isWhitespace then
      if cur.isEmpty then pySplitWsAux [] acc cs
      else pySplitWsAux [] (String.mk cur.reverse :: acc) cs
    else pySplitWsAux (c :: cur) acc cs

/-- Python `str.split()` with no separator: split on whitespace runs,
dropping empty pieces (leading/trailing whitespace is ignored). -/
def pySplitWs (s : String) : List String := pySplitWsAux [] [] s.toList

/-- Python `str.strip()`: drop leading and trailing whitespace. -/
def pyStrip (s : String) : String :=
  String.mk (((s.toList.dropWhile Char.isWhitespace).reverse.dropWhile
    Char.isWhitespace).reverse)

/-- Worker for `splitLines`. -/
def splitLinesAux (cur : List Char) : List Char → List String
  | [] => [String.mk cur.reverse]
  | c :: cs =>
    if c = '\n' then String.mk cur.reverse :: splitLinesAux [] cs
    else splitLinesAux (c :: cur) cs

/-- Python `str.split("\n")`: split on every newline, keeping empty pieces. -/
def splitLines (s : String) : List String := splitLinesAux [] s.toList

/-- Worker for `pyReplace`, with fuel so the recursion is structural; fuel at
least the length of the text makes it total. -/
def pyReplaceAux (pat repl : List Char) : Nat → List Char → List Char
  | 0, s => s
  | _ + 1, [] => []
  | fuel + 1, c :: cs =>
    if pat.isPrefixOf (c :: cs) then
      repl ++ pyReplaceAux pat repl fuel ((c :: cs).drop pat.length)
    else
      c :: pyReplaceAux pat repl fuel cs

/-- Python `str.replace(pat, repl)` for a nonempty pattern: replace every
non-overlapping occurrence, left to right. -/
def pyReplace (s pat repl : String) : String :=
  String.mk (pyReplaceAux pat.toList repl.toList (s.toList.length + 1) s.toList)

/-- Python `str.isdigit` restricted to ASCII digits: nonempty and all digits. -/
def pyIsDigit (s : String) : Bool :=
  !s.isEmpty && s.toList.all Char.isDigit

/-- Python `int(...)` on a string of ASCII digits. -/
def pyToNat (s : String) : Nat :=
  s.toList.foldl (fun n c => n * 10 + (c.toNat - '0'.toNat)) 0

/-- Join strings with single spaces, as `' '.join(...)` does. -/
def sjoin : List String → String
  | [] => ""
  | [x] => x
  | x :: xs => x ++ " " ++ sjoin xs

/-- Join strings with newlines, as `'\n'.join(...)` does. -/
def njoin : List String → String
  | [] => ""
  | [x] => x
  | x :: xs => x ++ "\n" ++ njoin xs

/-- The shorthand table `cron_patterns` of `_convert_cron_to_systemd`. -/
def cron_patterns : List (String × String) :=
  [("@yearly", "yearly"), ("@annually", "yearly"), ("@monthly", "monthly"),
   ("@weekly", "weekly"), ("@daily", "daily"), ("@midnight", "daily"),
   ("@hourly", "hourly")]

/-- The weekday-name table `days` of `_convert_cron_to_systemd`
(`Sunday = 0`). -/
def cronDays : List String := ["Sun", "Mon", "Tue", "Wed", "Thu", "Fri", "Sat"]

/-- Conversion of the five already-split cron fields, mirroring the body of
`_convert_cron_to_systemd` after the `len(parts) != 5` check: an optional
weekday part (omitted when the field is `*`; a digit indexes the `days` table,
raising `IndexError` when out of range), then `*-month-day`, then
`hour:minute:00`, joined by single spaces. -/
def convertCronFields (minute hour day month weekday : String) :
    Except String String := do
  let weekdayParts ←
    if weekday ≠ "*" then
      if pyIsDigit weekday then
        match cronDays[pyToNat weekday]? with
        | some d => pure [d]
        | none => throw "IndexError: list index out of range"
      else
        pure [weekday]
    else
      pure []
  let systemdParts := weekdayParts ++
    ["*" ++ "-" ++ month ++ "-" ++ day, hour ++ ":" ++ minute ++ ":00"]
  pure (sjoin systemdParts)

/-- `SSHConnectionManager._convert_cron_to_systemd`: a shorthand found in
`cron_patterns` maps through the table; otherwise the expression is stripped
and whitespace-split, rejected (`ValueError`) unless exactly five fields
remain, and converted field-by-field. -/
def convert_cron_to_systemd (cron_expression : String) : Except String String :=
  match cron_patterns.lookup cron_expression with
  | some v => .ok v
  | none =>
    match pySplitWs (pyStrip cron_expression) with
    | [minute, hour, day, month, weekday] =>
        convertCronFields minute hour day month weekday
    | _ => .error ("Invalid cron expression: " ++ cron_expression)

/-- The conversion as the claim literally words it: the five fields become
`weekday year-month-day hour:minute:00` with `*` passed through for every
wildcard field, so a wildcard weekday still contributes a literal `*`
component.  Written from the spec sentence, for comparison with
`convertCronFields` which is written from the source. -/
def claimedCronFields (minute hour day month weekday : String) : String :=
  weekday ++ " " ++ "*" ++ "-" ++ month ++ "-" ++ day ++ " " ++
    hour ++ ":" ++ minute ++ ":00"

/-- Emit one directive line from an optional string field guarded by Python
truthiness (absent or empty string emits nothing). -/
def strOpt (v : Option String) (f : String → String) : List String :=
  match v with
  | some s => if s = "" then [] else [f s]
  | none => []

/-- Emit one directive line from a list-valued field guarded by Python
truthiness (empty list emits nothing). -/
def listOpt (v : List String) (f : List String → String) : List String :=
  if v.isEmpty then [] else [f v]

/-- Emit one directive line from an optional numeric field guarded by Python
truthiness (absent or zero emits nothing). -/
def natOpt (v : Option Nat) (f : Nat → String) : List String :=
  match v with
  | some n => if n = 0 then [] else [f n]
  | none => []


/-- The `timer_config` dictionary consumed by
`_generate_systemd_timer_file`, shaped after `TimerConfiguration` in
`app/schemas/service.py` (string fields are `None`-able; booleans default to
false). -/
structure TimerConfig where
  on_calendar : Option String := none
  cron_expression : Option String := none
  on_boot_sec : Option String := none
  on_startup_sec : Option String := none
  on_unit_active_sec : Option String := none
  on_unit_inactive_sec : Option String := none
  accuracy_sec : Option String := none
  randomized_delay_sec : Option String := none
  persistent : Bool := false
  wake_system : Bool := false
  deriving DecidableEq, Repr

/-- The `service_config` dictionary consumed by
`_generate_systemd_service_file` and `create_systemd_service`, shaped after
`EnhancedServiceCreateRequest` in `app/schemas/service.py`.  `none` / the
empty list model an absent or `None`/falsy value. -/
structure ServiceConfig where
  name : String := ""
  description : Option String := none
  after_units : List String := []
  before_units : List String := []
  wants_units : List String := []
  requires_units : List String := []
  conflicts_units : List String := []
  systemd_type : Option String := none
  exec_start : String := ""
  exec_start_pre : Option String := none
  exec_start_post : Option String := none
  exec_stop : Option String := none
  exec_reload : Option String := none
  restart_policy : Option String := none
  restart_sec : Option Nat := none
  timeout_start_sec : Option Nat := none
  timeout_stop_sec : Option Nat := none
  user : Option String := none
  group : Option String := none
  working_directory : Option String := none
  umask : Option String := none
  environment_variables : List (String × String) := []
  environment_file : Option String := none
  no_new_privileges : Bool := false
  private_tmp : Bool := false
  protect_system : Option String := none
  protect_home : Bool := false
  read_only_paths : List String := []
  inaccessible_paths : List String := []
  standard_output : Option String := none
  standard_error : Option String := none
  syslog_identifier : Option String := none
  wanted_by : Option (List String) := none
  required_by : List String := []
  also : List String := []
  create_timer : Bool := false
  timer_config : Option TimerConfig := none
  auto_enable : Bool := true
  auto_start : Bool := true
  deriving DecidableEq, Repr

/-- The `[Unit]` directive lines of `_generate_systemd_service_file`
(everything appended between the `[Unit]` header and the blank line). -/
def unit_section_lines (c : ServiceConfig) : List String :=
  strOpt c.description (fun v => "Description=" ++ v)
  ++ listOpt c.after_units (fun v => "After=" ++ sjoin v)
  ++ listOpt c.before_units (fun v => "Before=" ++ sjoin v)
  ++ listOpt c.wants_units (fun v => "Wants=" ++ sjoin v)
  ++ listOpt c.requires_units (fun v => "Requires=" ++ sjoin v)
  ++ listOpt c.conflicts_units (fun v => "Conflicts=" ++ sjoin v)

/-- The `[Service]` directive lines of `_generate_systemd_service_file`, in
the exact append order of the source; `Type`, `ExecStart`, `Restart`,
`StandardOutput` and `StandardError` are emitted unconditionally, with
`.get(key, default)` defaults `simple`, `on-failure`, `journal`, `journal`. -/
def service_section_lines (c : ServiceConfig) : List String :=
  ["Type=" ++ c.systemd_type.getD "simple",
   "ExecStart=" ++ c.exec_start]
  ++ strOpt c.exec_start_pre (fun v => "ExecStartPre=" ++ v)
  ++ strOpt c.exec_start_post (fun v => "ExecStartPost=" ++ v)
  ++ strOpt c.exec_stop (fun v => "ExecStop=" ++ v)
  ++ strOpt c.exec_reload (fun v => "ExecReload=" ++ v)
  ++ ["Restart=" ++ c.restart_policy.getD "on-failure"]
  ++ natOpt c.restart_sec (fun v => "RestartSec=" ++ toString v)
  ++ natOpt c.timeout_start_sec (fun v => "TimeoutStartSec=" ++ toString v)
  ++ natOpt c.timeout_stop_sec (fun v => "TimeoutStopSec=" ++ toString v)
  ++ strOpt c.user (fun v => "User=" ++ v)
  ++ strOpt c.group (fun v => "Group=" ++ v)
  ++ strOpt c.working_directory (fun v => "WorkingDirectory=" ++ v)
  ++ strOpt c.umask (fun v => "UMask=" ++ v)
  ++ c.environment_variables.map (fun kv => "Environment=" ++ kv.1 ++ "=" ++ kv.2)
  ++ strOpt c.environment_file (fun v => "EnvironmentFile=" ++ v)
  ++ (if c.no_new_privileges then ["NoNewPrivileges=yes"] else [])
  ++ (if c.private_tmp then ["PrivateTmp=yes"] else [])
  ++ strOpt c.protect_system (fun v => "ProtectSystem=" ++ v)
  ++ (if c.protect_home then ["ProtectHome=yes"] else [])
  ++ c.read_only_paths.map (fun p => "ReadOnlyPaths=" ++ p)
  ++ c.inaccessible_paths.map (fun p => "InaccessiblePaths=" ++ p)
  ++ ["StandardOutput=" ++ c.standard_output.getD "journal",
      "StandardError=" ++ c.standard_error.getD "journal"]
  ++ strOpt c.syslog_identifier (fun v => "SyslogIdentifier=" ++ v)

/-- The `[Install]` directive lines of `_generate_systemd_service_file`;
`WantedBy` is emitted unconditionally with default `multi-user.target`. -/
def install_section_lines (c : ServiceConfig) : List String :=
  ["WantedBy=" ++ sjoin (c.wanted_by.getD ["multi-user.target"])]
  ++ listOpt c.required_by (fun v => "RequiredBy=" ++ sjoin v)
  ++ listOpt c.also (fun v => "Also=" ++ sjoin v)

/-- `SSHConnectionManager._generate_systemd_service_file`: the three section
headers are always emitted, in the fixed order `[Unit]`, `[Service]`,
`[Install]`, separated by blank lines, and the result ends in a newline. -/
def generate_systemd_service_file (c : ServiceConfig) : String :=
  njoin
    (["[Unit]"] ++ unit_section_lines c
      ++ ["", "[Service]"] ++ service_section_lines c
      ++ ["", "[Install]"] ++ install_section_lines c) ++ "\n"

/-- `SSHConnectionManager._generate_systemd_timer_file`: `[Unit]` with a fixed
description and `Requires=`, `[Timer]` with `OnCalendar` from the explicit
calendar spec or else from cron conversion (whose `ValueError`/`IndexError`
propagates as the error case), then the remaining optional directives, then
`[Install]` with `WantedBy=timers.target`. -/
def generate_systemd_timer_file (service_name : String) (t : TimerConfig) :
    Except String String := do
  let calendarLines ←
    match t.on_calendar with
    | some oc =>
      if oc = "" then pure ([] : List String) else pure ["OnCalendar=" ++ oc]
    | none => pure []
  let calendarLines ←
    if calendarLines.isEmpty then
      match t.cron_expression with
      | some ce =>
        if ce = "" then pure ([] : List String)
        else do
          let oc ← convert_cron_to_systemd ce
          pure ["OnCalendar=" ++ oc]
      | none => pure []
    else pure calendarLines
  let timerLines := calendarLines
    ++ strOpt t.on_boot_sec (fun v => "OnBootSec=" ++ v)
    ++ strOpt t.on_startup_sec (fun v => "OnStartupSec=" ++ v)
    ++ strOpt t.on_unit_active_sec (fun v => "OnUnitActiveSec=" ++ v)
    ++ strOpt t.on_unit_inactive_sec (fun v => "OnUnitInactiveSec=" ++ v)
    ++ strOpt t.accuracy_sec (fun v => "AccuracySec=" ++ v)
    ++ strOpt t.randomized_delay_sec (fun v => "RandomizedDelaySec=" ++ v)
    ++ (if t.persistent then ["Persistent=yes"] else [])
    ++ (if t.wake_system then ["WakeSystem=yes"] else [])
  pure (njoin
    (["[Unit]",
      "Description=Timer for " ++ service_name,
      "Requires=" ++ service_name ++ ".service",
      "", "[Timer]"] ++ timerLines
      ++ ["", "[Install]", "WantedBy=timers.target"]) ++ "\n")

/-- A single-quote character, used in the heredoc delimiters of the remote
`tee` commands. -/
def sq : String := "\x27"

/-- The remote path of a generated `.service` file. -/
def serviceFilePath (name : String) : String :=
  "/etc/systemd/system/" ++ name ++ ".service"

/-- The remote path of a generated `.timer` file. -/
def timerFilePath (name : String) : String :=
  "/etc/systemd/system/" ++ name ++ ".timer"

/-- The `sudo tee ... << 'EOF'` command used to write a unit file. -/
def teeCmd (path content : String) : String :=
  "sudo tee " ++ path ++ " > /dev/null << " ++ sq ++ "EOF" ++ sq ++ "\n"
    ++ content ++ "EOF"

/-- The `sudo rm -f` command used to roll back the service file. -/
def rmCmd (path : String) : String := "sudo rm -f " ++ path

/-- The daemon-reload command. -/
def daemonReloadCmd : String := "sudo systemctl daemon-reload"

/-- Result record of `create_systemd_service`: the `(success, message,
created_files, systemd_files)` tuple of the source plus the list of remote
commands issued, in order. -/
structure CreateServiceResult where
  success : Bool
  message : String
  created_files : List String
  systemd_files : List (String × String)
  issued : List String
  deriving DecidableEq, Repr

/-- Whether a timer file is generated for this config: the source's
`service_config.get("create_timer") and service_config.get("timer_config")`
test. -/
def timerRequested (c : ServiceConfig) : Bool :=
  c.create_timer && c.timer_config.isSome

/-- The tail of `create_systemd_service` after all files are written:
daemon-reload, then conditional enable and start (targeting the `.timer`
unit when a timer file was written); the results of these commands are only
logged, never affect the returned success. -/
def createServiceTail (c : ServiceConfig) (hasTimer : Bool)
    (created : List String) (files : List (String × String))
    (issuedSoFar : List String) : CreateServiceResult :=
  let enableCmds :=
    if c.auto_enable then
      [if hasTimer then "sudo systemctl enable " ++ c.name ++ ".timer"
       else "sudo systemctl enable " ++ c.name ++ ".service"]
    else []
  let startCmds :=
    if c.auto_start then
      [if hasTimer then "sudo systemctl start " ++ c.name ++ ".timer"
       else "sudo systemctl start " ++ c.name ++ ".service"]
    else []
  { success := true,
    message := "Service " ++ c.name ++ " created successfully",
    created_files := created,
    systemd_files := files,
    issued := issuedSoFar ++ [daemonReloadCmd] ++ enableCmds ++ startCmds }

/-- `SSHConnectionManager.create_systemd_service`.  `connOk`/`connErr` model
whether the SSH session could be acquired (a failure lands in the outer
`except` handler); `exec` gives each issued command's result.  Transport-level
exceptions in mid-sequence commands are not modelled — `exec` always returns
an exit result, matching the source's happy transport path. -/
def create_systemd_service (connOk : Bool) (connErr : String)
    (exec : String → CmdResult) (c : ServiceConfig) (dry_run : Bool) :
    CreateServiceResult :=
  if !connOk then
    { success := false,
      message := "Failed to create systemd service: " ++ connErr,
      created_files := [], systemd_files := [], issued := [] }
  else
    let svcContent := generate_systemd_service_file c
    let svcPath := serviceFilePath c.name
    let timerGen : Except String (Option String) :=
      if c.create_timer then
        match c.timer_config with
        | some tc => (generate_systemd_timer_file c.name tc).map some
        | none => .ok none
      else .ok none
    match timerGen with
    | .error e =>
      { success := false,
        message := "Failed to create systemd service: " ++ e,
        created_files := [], systemd_files := [], issued := [] }
    | .ok timerContent? =>
      let files := [(c.name ++ ".service", svcContent)]
        ++ (match timerContent? with
            | some tcontent => [(c.name ++ ".timer", tcontent)]
            | none => [])
      if dry_run then
        { success := true, message := "Dry run completed successfully",
          created_files := [], systemd_files := files, issued := [] }
      else
        let cmd1 := teeCmd svcPath svcContent
        let r1 := exec cmd1
        if !r1.ok then
          { success := false,
            message := "Failed to create service file: " ++ r1.stderr,
            created_files := [], systemd_files := files, issued := [cmd1] }
        else
          match timerContent? with
          | some tcontent =>
            let cmd2 := teeCmd (timerFilePath c.name) tcontent
            let r2 := exec cmd2
            if !r2.ok then
              { success := false,
                message := "Failed to create timer file: " ++ r2.stderr,
                created_files := [], systemd_files := files,
                issued := [cmd1, cmd2, rmCmd svcPath] }
            else
              createServiceTail c true [svcPath, timerFilePath c.name] files
                [cmd1, cmd2]
          | none =>
            createServiceTail c false [svcPath] files [cmd1]

/-- The `create_timer` field validator of `EnhancedServiceCreateRequest`
(`app/schemas/service.py`): `create_timer=True` with an absent/null
`timer_config` raises a `ValueError` (a configuration error rejected at the
request boundary, before any synthesis or remote call). -/
def validate_timer_creation (create_timer : Bool)
    (timer_config : Option TimerConfig) : Except String Bool :=
  if create_timer && timer_config.isNone then
    .error "timer_config is required when create_timer is True"
  else .ok create_timer

/-- The six action verbs accepted by `control_service`. -/
def valid_actions : List String :=
  ["start", "stop", "restart", "reload", "enable", "disable"]

/-- `SSHConnectionManager.control_service`: returns the `(success, message)`
pair of the source together with the list of remote commands issued.  An
invalid action is rejected before any connection attempt; a connection
failure lands in the outer handler with a generic message; otherwise exactly
`sudo systemctl <action> <name>` is run. -/
def control_service (connOk : Bool) (connErr : String)
    (exec : String → CmdResult) (service_name action : String) :
    Bool × String × List String :=
  if !(valid_actions.contains action) then
    (false,
     "Invalid action: " ++ action ++ ". Valid actions: "
       ++ ", ".intercalate valid_actions,
     [])
  else if !connOk then
    (false, "Failed to " ++ action ++ " " ++ service_name ++ ": " ++ connErr, [])
  else
    let command := "sudo systemctl " ++ action ++ " " ++ service_name
    let r := exec command
    if r.ok then
      (true, "Successfully " ++ action ++ "ed " ++ service_name, [command])
    else
      (false,
       if pyStrip r.stderr = "" then
         "Failed to " ++ action ++ " " ++ service_name
       else pyStrip r.stderr,
       [command])

/-- Boolean substring test (`pat in s` for strings in Python). -/
def hasSubstr (s pat : List Char) : Bool :=
  match s with
  | [] => pat.isEmpty
  | _ :: cs => pat.isPrefixOf s || hasSubstr cs pat

/-- One row of `systemctl list-units` output as parsed by the source (a
dictionary with `unit`/`load`/`active`/`sub`/`description` keys). -/
structure UnitRow where
  unit : String := ""
  load : String := ""
  active : String := ""
  sub : String := ""
  rowDescription : String := ""
  deriving DecidableEq, Repr

/-- `SSHConnectionManager._parse_service_list_text`: keep the lines containing
`.service`, whitespace-split each, keep those with at least four columns, and
join any remaining columns into the description. -/
def parse_service_list_text (output : String) : List UnitRow :=
  (splitLines (pyStrip output)).foldr
    (fun line acc =>
      if hasSubstr line.toList ".service".toList then
        let parts := pySplitWs line
        if parts.length ≥ 4 then
          { unit := parts.getD 0 "", load := parts.getD 1 "",
            active := parts.getD 2 "", sub := parts.getD 3 "",
            rowDescription :=
              if parts.length > 4 then sjoin (parts.drop 4) else "" } :: acc
        else acc
      else acc)
    []

/-- `ServiceType` enum of `app/models/service.py`. -/
inductive ServiceType
  | systemd
  | docker
  | custom
  deriving DecidableEq, Repr

/-- `ServiceStatus` enum of `app/models/service.py`. -/
inductive ServiceStatus
  | active
  | inactive
  | failed
  | activating
  | deactivating
  | unknown
  deriving DecidableEq, Repr

/-- `ServiceState` enum of `app/models/service.py`. -/
inductive ServiceState
  | enabled
  | disabled
  | static
  | masked
  | unknown
  deriving DecidableEq, Repr

/-- The per-unit summary produced by
`SSHConnectionManager._get_service_details` (string properties default to
`""`; `MainPID` of `0` becomes an absent pid). -/
structure DiscoveredUnit where
  name : String := ""
  description : String := ""
  status : ServiceStatus := ServiceStatus.unknown
  state : ServiceState := ServiceState.unknown
  load_state : String := ""
  active_state : String := ""
  sub_state : String := ""
  main_pid : Option Int := none
  exec_start : String := ""
  restart_policy : String := ""
  unit_file_path : String := ""
  deriving DecidableEq, Repr

/-- `SSHConnectionManager.discover_services`.  `conn` models session
acquisition, `listCmd` the result of the `systemctl list-units ... json`
command (`Except.error` = a raised transport exception), `parseJson` the
outcome of `json.loads` on its stdout, `fallbackList` the text-format retry
command, and `detail` the per-unit `_get_service_details` (which swallows its
own exceptions and returns `None` on any failure).  Every exception reaching
the outer handler is re-raised as `SSHConnectionError` (the `Except.error`
of the result); a list command that runs but exits non-ok returns `ok []`. -/
def discover_services_ssh (conn : Except String Unit)
    (listCmd : Except String CmdResult)
    (parseJson : String → Option (List UnitRow))
    (fallbackList : Except String CmdResult)
    (detail : String → Option DiscoveredUnit) :
    Except String (List DiscoveredUnit) :=
  match conn with
  | .error e => .error ("Failed to discover services: " ++ e)
  | .ok _ =>
    match listCmd with
    | .error e => .error ("Failed to discover services: " ++ e)
    | .ok r =>
      if !r.ok then .ok []
      else
        let rows : Except String (List UnitRow) :=
          match parseJson r.stdout with
          | some rows => .ok rows
          | none =>
            match fallbackList with
            | .error e => .error ("Failed to discover services: " ++ e)
            | .ok r2 => .ok (parse_service_list_text r2.stdout)
        match rows with
        | .error e => .error e
        | .ok rs => .ok (rs.filterMap (fun row => detail row.unit))

/-- The path of a unit's override drop-in file, with the `.service` suffix
stripped from the name first (every occurrence, as `str.replace` does). -/
def override_file_path_of (service_name : String) : String :=
  "/etc/systemd/system/" ++ pyReplace service_name ".service" ""
    ++ ".service.d/override.conf"

/-- The remote command used to read an override file. -/
def catOverrideCmd (service_name : String) : String :=
  "sudo cat " ++ override_file_path_of service_name

/-- `SSHConnectionManager.get_service_override_content`: returns
`(success, content, path)`.  A read command that runs but fails (missing file,
permission error, anything) yields `(true, none, path)`; only a session
acquisition failure or a transport-level exception (`Except.error` from
`exec`) yields `(false, none, none)`. -/
def get_service_override_content (conn : Except String Unit)
    (exec : String → Except String CmdResult) (service_name : String) :
    Bool × Option String × Option String :=
  match conn with
  | .error _ => (false, none, none)
  | .ok _ =>
    match exec (catOverrideCmd service_name) with
    | .error _ => (false, none, none)
    | .ok r =>
      if r.ok then (true, some r.stdout, some (override_file_path_of service_name))
      else (true, none, some (override_file_path_of service_name))

/-- The `Server` record (`app/models/server.py`), restricted to the fields the
verified operations consult. -/
structure Server where
  hostname : String := ""
  is_enabled : Bool := true
  auto_discover_services : Bool := true
  deriving DecidableEq, Repr

/-- The `Service` record of `app/models/service.py`, with column defaults.
`creation_source` and `is_custom_created` are carried because
`ServiceService.create_custom_service` assigns them (`"created"` / `True`),
although `app/models/service.py` declares no such columns; nothing in the
discovery path ever sets or reads them.  `JSONB` metadata columns are
modelled as association lists and timestamps as `Nat`. -/
structure Service where
  id : Nat := 0
  server_id : Nat := 0
  name : String := ""
  display_name : Option String := none
  description : Option String := none
  service_type : ServiceType := ServiceType.systemd
  unit_file_path : Option String := none
  status : ServiceStatus := ServiceStatus.unknown
  state : ServiceState := ServiceState.unknown
  main_pid : Option Int := none
  load_state : Option String := none
  active_state : Option String := none
  sub_state : Option String := none
  exec_start : Option String := none
  exec_reload : Option String := none
  exec_stop : Option String := none
  restart_policy : Option String := none
  dependencies : List String := []
  dependents : List String := []
  conflicts : List String := []
  is_timer : Bool := false
  timer_schedule : Option String := none
  next_activation : Option Nat := none
  last_activation : Option Nat := none
  cpu_usage_percent : Option Int := none
  memory_usage_mb : Option Int := none
  memory_limit_mb : Option Int := none
  started_at : Option Nat := none
  active_duration_seconds : Option Int := none
  last_status_check : Option Nat := none
  status_check_error : Option String := none
  auto_restart : Bool := false
  environment_variables : List (String × String) := []
  service_config : List (String × String) := []
  override_config : Option (List (String × String)) := none
  is_managed : Bool := true
  is_monitored : Bool := true
  tags : List (String × String) := []
  extra_data : List (String × String) := []
  creation_source : Option String := none
  is_custom_created : Bool := false
  timer_file_path : Option String := none
  deriving DecidableEq, Repr

/-- `Service.update_status`: always overwrites `status` and the status-check
timestamp; each optional argument overwrites its field only when not `None`;
`status_check_error` is set to the `error` argument, which clears it when the
argument is `None`. -/
def update_status (now : Nat) (s : Service) (status : ServiceStatus)
    (state : Option ServiceState) (main_pid : Option Int)
    (load_state : Option String) (active_state : Option String)
    (sub_state : Option String) (error : Option String) : Service :=
  { s with
    status := status,
    last_status_check := some now,
    state := match state with | some v => v | none => s.state,
    main_pid := match main_pid with | some v => some v | none => s.main_pid,
    load_state := match load_state with | some v => some v | none => s.load_state,
    active_state :=
      match active_state with | some v => some v | none => s.active_state,
    sub_state := match sub_state with | some v => some v | none => s.sub_state,
    status_check_error := error }

/-- The update applied by `ServiceService.discover_services` to an existing
local record for a discovered unit: the `update_status` call followed by the
four direct field assignments (description, exec_start, restart_policy,
unit_file_path). -/
def apply_discovered_update (now : Nat) (s : Service) (d : DiscoveredUnit) :
    Service :=
  let s1 := update_status now s d.status (some d.state) d.main_pid
    (some d.load_state) (some d.active_state) (some d.sub_state) none
  { s1 with
    description := some d.description,
    exec_start := some d.exec_start,
    restart_policy := some d.restart_policy,
    unit_file_path := some d.unit_file_path }

/-- The new `Service` record built by `ServiceService.discover_services` for
a discovered unit absent locally (type `SYSTEMD`, remaining columns at their
defaults). -/
def mk_discovered_service (server_id now : Nat) (d : DiscoveredUnit) : Service :=
  { server_id := server_id,
    name := d.name,
    description := some d.description,
    service_type := ServiceType.systemd,
    unit_file_path := some d.unit_file_path,
    status := d.status,
    state := d.state,
    main_pid := d.main_pid,
    load_state := some d.load_state,
    active_state := some d.active_state,
    sub_state := some d.sub_state,
    exec_start := some d.exec_start,
    restart_policy := some d.restart_policy,
    last_status_check := some now }

/-- Replace the first record whose name matches the discovered unit by its
updated version (`next(...)` over `current_services` followed by the in-place
update). -/
def update_first (now : Nat) (d : DiscoveredUnit) : List Service → List Service
  | [] => []
  | s :: rest =>
    if s.name = d.name then apply_discovered_update now s d :: rest
    else s :: update_first now d rest

/-- Intermediate state of the add-or-update loop of
`ServiceService.discover_services`. -/
structure UpdatePhaseResult where
  cur : List Service
  created : List Service
  discovered : Nat
  updated : Nat
  deriving DecidableEq, Repr

/-- The add-or-update loop of `ServiceService.discover_services`: walk the
discovered units in order; a unit whose name matches a current record updates
that record in place (counted `updated`), otherwise a fresh record is created
(counted `discovered`). -/
def update_phase (now server_id : Nat) :
    List Service → List DiscoveredUnit → UpdatePhaseResult
  | cur, [] => { cur := cur, created := [], discovered := 0, updated := 0 }
  | cur, d :: ds =>
    if cur.any (fun s => s.name == d.name) then
      let r := update_phase now server_id (update_first now d cur) ds
      { r with updated := r.updated + 1 }
    else
      let r := update_phase now server_id cur ds
      { r with
        created := mk_discovered_service server_id now d :: r.created,
        discovered := r.discovered + 1 }

/-- The removal condition of `ServiceService.discover_services`:
`service.name not in discovered_service_names and service.service_type ==
ServiceType.SYSTEMD` — with no condition on how the record was created. -/
def removable (discovered_names : List String) (s : Service) : Bool :=
  !(discovered_names.contains s.name)
    && decide (s.service_type = ServiceType.systemd)

/-- The removal loop of `ServiceService.discover_services`: delete every
current record satisfying `removable`.  Returns the surviving records and
the `services_removed` count. -/
def remove_phase (discovered_names : List String) :
    List Service → List Service × Nat
  | [] => ([], 0)
  | s :: rest =>
    let r := remove_phase discovered_names rest
    if removable discovered_names s then (r.1, r.2 + 1)
    else (s :: r.1, r.2)

/-- Result of the reconciliation pass: the persisted unit set afterwards and
the three reported counts. -/
structure DiscoveryResult where
  final : List Service
  services_discovered : Nat
  services_updated : Nat
  services_removed : Nat
  deriving DecidableEq, Repr

/-- The reconciliation pass of `ServiceService.discover_services` (lines
301–386): the add-or-update loop over the discovered list, then the removal
loop over the current records against the discovered name set. -/
def discover_pass (now server_id : Nat) (current_services : List Service)
    (discovered_services : List DiscoveredUnit) : DiscoveryResult :=
  let u := update_phase now server_id current_services discovered_services
  let r := remove_phase (discovered_services.map (fun d => d.name)) u.cur
  { final := r.1 ++ u.created,
    services_discovered := u.discovered,
    services_updated := u.updated,
    services_removed := r.2 }

/-- The delete-set exactly as the claim words it: locally present units of
the discoverable (systemd) type, created by discovery
(`creation source = "discovered"`), whose name is absent from the discovered
set.  Written from the spec sentence, for comparison with the removal loop
written from the source. -/
def specDeleteSet (L : List Service) (D : List DiscoveredUnit) : List Service :=
  L.filter (fun s =>
    decide (s.service_type = ServiceType.systemd ∧
      s.creation_source = some "discovered" ∧
      ¬ (D.map (fun d => d.name)).contains s.name))

/-- Outcome of `ServiceService.control_service` toward its caller: either a
raised `ValueError` (propagated to the API layer) or a returned
`ServiceControlResponse` reduced to its success flag and message. -/
inductive ControlServiceOutcome
  | raised (msg : String)
  | response (success : Bool) (message : String)
  deriving DecidableEq, Repr

/-- Whether an outcome is a raised exception rather than a returned result. -/
def isRaised : ControlServiceOutcome → Bool
  | ControlServiceOutcome.raised _ => true
  | ControlServiceOutcome.response _ _ => false

/-- `ServiceService.control_service` (lines 104–181): the lookup and policy
gates raise `ValueError` before the `try` block, so a missing service, a
missing or disabled server, and an unmanaged service all raise to the caller
with zero remote commands issued; otherwise the SSH-level `control_service`
runs and its `(success, message)` pair is returned as the response.  The
post-success status refresh (database bookkeeping) is not modelled. -/
def svc_control_service (service_id : Nat) (service : Option Service)
    (server : Option Server) (connOk : Bool) (connErr : String)
    (exec : String → CmdResult) (action : String) :
    ControlServiceOutcome × List String :=
  match service with
  | none =>
    (ControlServiceOutcome.raised
      ("Service with ID " ++ toString service_id ++ " not found"), [])
  | some s =>
    match server with
    | none =>
      (ControlServiceOutcome.raised
        ("Service " ++ s.name ++ " has no associated server"), [])
    | some srv =>
      if ¬ srv.is_enabled then
        (ControlServiceOutcome.raised
          ("Server " ++ srv.hostname ++ " is disabled"), [])
      else if ¬ s.is_managed then
        (ControlServiceOutcome.raised
          ("Service " ++ s.name ++ " is not managed by Owleyes"), [])
      else
        let r := control_service connOk connErr exec s.name action
        (ControlServiceOutcome.response r.1 r.2.1, r.2.2)

/-! ### Concrete instances used by counterexamples and witnesses -/

/-- A minimal service config: only the mandatory name and start command. -/
def minimalConfig : ServiceConfig := { name := "app", exec_start := "/usr/bin/app" }

/-- A service-with-timer config for exercising `create_systemd_service`. -/
def jobConfig : ServiceConfig :=
  { name := "job", exec_start := "/bin/job", create_timer := true,
    timer_config := some { on_calendar := some "daily" } }

/-- The timer configuration of `jobConfig`. -/
def jobTimerConfig : TimerConfig := { on_calendar := some "daily" }

/-- The rendered timer file of `jobConfig`. -/
def jobTimerContent : String :=
  "[Unit]\nDescription=Timer for job\nRequires=job.service\n\n[Timer]\nOnCalendar=daily\n\n[Install]\nWantedBy=timers.target\n"

/-- A locally persisted unit that was explicitly deployed (creation source
`"created"`), of systemd type. -/
def createdOrphan : Service :=
  { name := "job.service", service_type := ServiceType.systemd,
    creation_source := some "created", is_custom_created := true }

/-- A locally persisted record carrying a stale status-check error and some
metadata that discovery must not touch. -/
def staleService : Service :=
  { name := "x.service", display_name := some "X", status_check_error := some "probe timeout",
    tags := [("team", "infra")], auto_restart := true }

/-- A freshly discovered description of the same unit. -/
def freshUnit : DiscoveredUnit :=
  { name := "x.service", description := "X daemon", status := ServiceStatus.active,
    state := ServiceState.enabled, load_state := "loaded", active_state := "active",
    sub_state := "running", main_pid := some 321, exec_start := "/usr/bin/x",
    restart_policy := "always", unit_file_path := "/lib/systemd/system/x.service" }

/-- A disabled host. -/
def disabledServer : Server := { hostname := "h1", is_enabled := false }

/-- An enabled host. -/
def enabledServer : Server := { hostname := "h2", is_enabled := true }

/-- A managed service record. -/
def managedService : Service := { name := "web.service" }

/-- A locally persisted unit of non-discoverable (custom) type. -/
def customUnit : Service := { name := "y.service", service_type := ServiceType.custom }

/-- A discovered unit with no local counterpart. -/
def newUnit : DiscoveredUnit := { name := "z.service", description := "Z daemon" }

/-- An unmanaged service record. -/
def unmanagedService : Service := { name := "web.service", is_managed := false }

end DaemonAdmin

namespace DaemonAdmin

/-! ### Helper lemmas (shared) -/

/-- Fold two adjacent literal strings inside a right-associated append
chain. -/
theorem lit_fold (a b c X : String) (hab : a ++ b = c) : a ++ (b ++ X) = c ++ X := by
  rw [← String.append_assoc, hab]

/-- When the shorthand table misses, `convert_cron_to_systemd` falls through
to the five-field match. -/
theorem convert_cron_fallback (s : String) (h1 : cron_patterns.lookup s = none) :
    convert_cron_to_systemd s =
      match pySplitWs (pyStrip s) with
      | [minute, hour, day, month, weekday] =>
          convertCronFields minute hour day month weekday
      | _ => .error ("Invalid cron expression: " ++ s) := by
  simp [convert_cron_to_systemd, h1]

/-! ### C4 -/

/-- C4 counterexample: the claim's reading — `*` is passed through for every
wildcard field, so the converted form always has a weekday component — fails
at `0 2 * * *`: the source omits the weekday component entirely, producing
`*-*-* 2:0:00`, not the claimed `* *-*-* 2:0:00`. -/
theorem cron_wildcard_weekday_dropped :
    convert_cron_to_systemd "0 2 * * *" = Except.ok "*-*-* 2:0:00" ∧
    claimedCronFields "0" "2" "*" "*" "*" = "* *-*-* 2:0:00" ∧
    ("*-*-* 2:0:00" : String) ≠ "* *-*-* 2:0:00" := by
  decide

/-- C4 (amended): each shorthand maps through the table
(`@daily` ↦ `daily`, `@annually`/`@midnight` collapsing to `yearly`/`daily`);
a five-field expression converts field-by-field into
`[weekday] *-month-day hour:minute:00` where the weekday component is
omitted when that field is `*`, kept verbatim when non-numeric, and mapped
through the `Sun..Sat` table when numeric below 7; `*` passes through for
wildcard minute/hour/day/month, so `0 2 * * *` yields `*-*-* 2:0:00`; any
input that is neither a recognized shorthand nor exactly five fields is
rejected with a `ValueError`. -/
theorem cron_conversion_characterization :
    (∀ p ∈ cron_patterns, convert_cron_to_systemd p.1 = Except.ok p.2) ∧
    (∀ m h d mo : String, convertCronFields m h d mo "*" =
      Except.ok ("*-" ++ mo ++ "-" ++ d ++ " " ++ h ++ ":" ++ m ++ ":00")) ∧
    (∀ m h d mo w : String, w ≠ "*" → pyIsDigit w = false →
      convertCronFields m h d mo w =
        Except.ok (w ++ " *-" ++ mo ++ "-" ++ d ++ " " ++ h ++ ":" ++ m ++ ":00")) ∧
    (∀ m h d mo w : String, w ≠ "*" → pyIsDigit w = true → pyToNat w < 7 →
      convertCronFields m h d mo w =
        Except.ok (cronDays.getD (pyToNat w) "" ++ " *-" ++ mo ++ "-" ++ d ++ " "
          ++ h ++ ":" ++ m ++ ":00")) ∧
    convert_cron_to_systemd "0 2 * * *" = Except.ok "*-*-* 2:0:00" ∧
    (∀ s, cron_patterns.lookup s = none → (pySplitWs (pyStrip s)).length ≠ 5 →
      convert_cron_to_systemd s = Except.error ("Invalid cron expression: " ++ s)) := by
  refine ⟨?_, ?_, ?_, ?_, by decide, ?_⟩
  · intro p hp
    fin_cases hp <;> decide
  · intro m h d mo
    have h1 : convertCronFields m h d mo "*" =
        Except.ok ("*" ++ "-" ++ mo ++ "-" ++ d ++ " " ++ (h ++ ":" ++ m ++ ":00")) := rfl
    rw [h1]
    congr 1
    simp only [← String.append_assoc]
    rw [(by decide : ("*" : String) ++ "-" = "*-")]
  · intro m h d mo w hne hdig
    simp only [convertCronFields, if_pos hne, hdig, Bool.false_eq_true, if_false,
      pure, Except.pure, sjoin, bind, Except.bind]
    congr 1
    simp only [String.append_assoc]
    rw [lit_fold "*" "-" "*-" _ (by decide), lit_fold " " "*-" " *-" _ (by decide)]
  · intro m h d mo w hne hdig hlt
    have hl : pyToNat w < cronDays.length := by simpa [cronDays] using hlt
    have h7 : cronDays[pyToNat w]? = some (cronDays.getD (pyToNat w) "") := by
      simp [List.getD, List.getElem?_eq_getElem hl]
    simp only [convertCronFields, if_pos hne, hdig, if_true, h7,
      pure, Except.pure, sjoin, bind, Except.bind]
    congr 1
    simp only [String.append_assoc]
    rw [lit_fold "*" "-" "*-" _ (by decide), lit_fold " " "*-" " *-" _ (by decide)]
  · intro s h1 h2
    rw [convert_cron_fallback s h1]
    rcases hl : pySplitWs (pyStrip s) with _ | ⟨a, _ | ⟨b, _ | ⟨c, _ | ⟨d, _ | ⟨e, _ | ⟨f, t⟩⟩⟩⟩⟩⟩ <;>
      simp_all

/-- C4 witness: the characterization applied at concrete inputs. -/
theorem cron_conversion_characterization_witness :
    convert_cron_to_systemd "@daily" = Except.ok "daily" ∧
    convertCronFields "0" "2" "1" "6" "*" = Except.ok "*-6-1 2:0:00" ∧
    convertCronFields "0" "2" "1" "6" "Mon" = Except.ok "Mon *-6-1 2:0:00" ∧
    convertCronFields "0" "2" "1" "6" "5" = Except.ok "Fri *-6-1 2:0:00" ∧
    convert_cron_to_systemd "x y" = Except.error "Invalid cron expression: x y" := by
  refine ⟨?_, ?_, ?_, ?_, ?_⟩
  · exact cron_conversion_characterization.1 ("@daily", "daily") (by decide)
  · rw [cron_conversion_characterization.2.1 "0" "2" "1" "6"]; decide
  · rw [cron_conversion_characterization.2.2.1 "0" "2" "1" "6" "Mon" (by decide) (by decide)]
    decide
  · rw [cron_conversion_characterization.2.2.2.1 "0" "2" "1" "6" "5" (by decide) (by decide)
      (by decide)]
    decide
  · exact cron_conversion_characterization.2.2.2.2.2 "x y" (by decide) (by decide)

/-! ### C5 -/

/-- C5 counterexample: for a config whose `[Unit]` section has no directives,
the section is not omitted — the `[Unit]` header is still the first line of
the rendered file, so "omit a section entirely if it would be empty" fails. -/
theorem unit_section_not_omitted_when_empty :
    unit_section_lines minimalConfig = [] ∧
    (splitLines (generate_systemd_service_file minimalConfig)).contains "[Unit]" = true := by
  decide

/-- C5 (amended): the renderer always emits the three section headers in the
fixed order `[Unit]`, `[Service]`, `[Install]` separated by blank lines — the
`[Unit]` section may be empty but is never omitted, while `[Service]` and
`[Install]` are never empty because `Type`, `ExecStart`, `Restart`,
`StandardOutput`, `StandardError` and `WantedBy` are always emitted; when the
corresponding fields are unset the defaults are `Restart=on-failure`,
`StandardOutput=journal`, `StandardError=journal` and
`WantedBy=multi-user.target`; rendering is a pure function, so identical
inputs give byte-identical output. -/
theorem render_service_unit_sections (c : ServiceConfig) :
    generate_systemd_service_file c =
      njoin (["[Unit]"] ++ unit_section_lines c ++ ["", "[Service]"]
        ++ service_section_lines c ++ ["", "[Install]"]
        ++ install_section_lines c) ++ "\n" ∧
    service_section_lines c ≠ [] ∧
    install_section_lines c ≠ [] ∧
    (c.restart_policy = none → "Restart=on-failure" ∈ service_section_lines c) ∧
    (c.standard_output = none → "StandardOutput=journal" ∈ service_section_lines c) ∧
    (c.standard_error = none → "StandardError=journal" ∈ service_section_lines c) ∧
    (c.wanted_by = none → "WantedBy=multi-user.target" ∈ install_section_lines c) ∧
    (∀ c2 : ServiceConfig, c = c2 →
      generate_systemd_service_file c = generate_systemd_service_file c2) := by
  refine ⟨rfl, ?_, ?_, ?_, ?_, ?_, ?_, ?_⟩
  · simp [service_section_lines]
  · simp [install_section_lines]
  · intro h
    simp only [service_section_lines, h, Option.getD_none]
    rw [(by decide : ("Restart=" : String) ++ "on-failure" = "Restart=on-failure")]
    simp
  · intro h
    simp only [service_section_lines, h, Option.getD_none]
    rw [(by decide : ("StandardOutput=" : String) ++ "journal" = "StandardOutput=journal")]
    simp
  · intro h
    simp only [service_section_lines, h, Option.getD_none]
    rw [(by decide : ("StandardError=" : String) ++ "journal" = "StandardError=journal")]
    simp
  · intro h
    simp only [install_section_lines, h, Option.getD_none, sjoin]
    rw [(by decide : ("WantedBy=" : String) ++ "multi-user.target" = "WantedBy=multi-user.target")]
    simp
  · intro c2 h
    rw [h]

/-- C5 witness: the amended rendering facts at the minimal config. -/
theorem render_service_unit_sections_witness :
    "Restart=on-failure" ∈ service_section_lines minimalConfig ∧
    "StandardOutput=journal" ∈ service_section_lines minimalConfig ∧
    "WantedBy=multi-user.target" ∈ install_section_lines minimalConfig ∧
    service_section_lines minimalConfig ≠ [] := by
  refine ⟨?_, ?_, ?_, ?_⟩
  · exact (render_service_unit_sections minimalConfig).2.2.2.1 rfl
  · exact (render_service_unit_sections minimalConfig).2.2.2.2.1 rfl
  · exact (render_service_unit_sections minimalConfig).2.2.2.2.2.2.1 rfl
  · exact (render_service_unit_sections minimalConfig).2.1

/-! ### C8 -/

/-- C8: `control_service` accepts exactly the six actions start, stop,
restart, reload, enable, disable; any other action string is rejected locally
with a failure result and no command is sent; an accepted action runs exactly
`sudo systemctl <action> <name>` (elevated privilege); a successful run
returns `Successfully <action>ed <name>`; a failed run returns the host's
stripped stderr verbatim, or the generic `Failed to <action> <name>` when
stderr is empty after stripping. -/
theorem control_service_actions (connOk : Bool) (connErr : String)
    (exec : String → CmdResult) (name action : String) :
    valid_actions = ["start", "stop", "restart", "reload", "enable", "disable"] ∧
    (valid_actions.contains action = false →
      control_service connOk connErr exec name action =
        (false, "Invalid action: " ++ action
          ++ ". Valid actions: start, stop, restart, reload, enable, disable", [])) ∧
    (valid_actions.contains action = true →
      (exec ("sudo systemctl " ++ action ++ " " ++ name)).ok = true →
      control_service true connErr exec name action =
        (true, "Successfully " ++ action ++ "ed " ++ name,
          ["sudo systemctl " ++ action ++ " " ++ name])) ∧
    (valid_actions.contains action = true →
      (exec ("sudo systemctl " ++ action ++ " " ++ name)).ok = false →
      pyStrip (exec ("sudo systemctl " ++ action ++ " " ++ name)).stderr ≠ "" →
      control_service true connErr exec name action =
        (false, pyStrip (exec ("sudo systemctl " ++ action ++ " " ++ name)).stderr,
          ["sudo systemctl " ++ action ++ " " ++ name])) ∧
    (valid_actions.contains action = true →
      (exec ("sudo systemctl " ++ action ++ " " ++ name)).ok = false →
      pyStrip (exec ("sudo systemctl " ++ action ++ " " ++ name)).stderr = "" →
      control_service true connErr exec name action =
        (false, "Failed to " ++ action ++ " " ++ name,
          ["sudo systemctl " ++ action ++ " " ++ name])) := by
  have hj : (", ".intercalate valid_actions) =
      "start, stop, restart, reload, enable, disable" := by decide
  refine ⟨rfl, ?_, ?_, ?_, ?_⟩
  · intro h
    simp only [control_service, h, Bool.not_false, if_true, hj]
    rw [String.append_assoc,
      (by decide : (". Valid actions: " : String)
        ++ "start, stop, restart, reload, enable, disable"
        = ". Valid actions: start, stop, restart, reload, enable, disable")]
  · intro h hok
    simp [control_service, hok, show action ∈ valid_actions from by simpa using h]
  · intro h hok hs
    simp [control_service, hok, hs, show action ∈ valid_actions from by simpa using h]
  · intro h hok hs
    simp [control_service, hok, hs, show action ∈ valid_actions from by simpa using h]

/-- C8 witness: the four behaviours at concrete inputs. -/
theorem control_service_actions_witness :
    control_service true "" (fun _ => { ok := true }) "web.service" "borrow" =
      (false,
       "Invalid action: borrow. Valid actions: start, stop, restart, reload, enable, disable",
       []) ∧
    control_service true "" (fun _ => { ok := true }) "web.service" "start" =
      (true, "Successfully started web.service", ["sudo systemctl start web.service"]) ∧
    control_service true "" (fun _ => { ok := false, stderr := " boom \n" }) "web.service" "stop" =
      (false, "boom", ["sudo systemctl stop web.service"]) ∧
    control_service true "" (fun _ => { ok := false }) "web.service" "stop" =
      (false, "Failed to stop web.service", ["sudo systemctl stop web.service"]) := by
  refine ⟨?_, ?_, ?_, ?_⟩
  · rw [(control_service_actions true "" (fun _ => { ok := true }) "web.service"
      "borrow").2.1 (by decide)]
    decide
  · rw [(control_service_actions true "" (fun _ => { ok := true }) "web.service"
      "start").2.2.1 (by decide) (by decide)]
    decide
  · rw [(control_service_actions true "" (fun _ => { ok := false, stderr := " boom \n" })
      "web.service" "stop").2.2.2.1 (by decide) (by decide) (by decide)]
    decide
  · rw [(control_service_actions true "" (fun _ => { ok := false }) "web.service"
      "stop").2.2.2.2 (by decide) (by decide) (by decide)]
    decide

/-! ### C10 -/

/-- C10: `get_service_override_content` returns `success = true` with null
content whenever the remote read command runs and fails, for any stderr — a
missing override file and an unreadable one are indistinguishable, both
yielding `(true, none, path)` — and returns `success = false` only when the
session cannot be acquired or the command raises at the transport level. -/
theorem override_content_read (conn : Except String Unit)
    (exec : String → Except String CmdResult) (service_name : String) :
    (∀ r : CmdResult, exec (catOverrideCmd service_name) = Except.ok r → r.ok = false →
      get_service_override_content (Except.ok ()) exec service_name =
        (true, none, some (override_file_path_of service_name))) ∧
    (∀ r : CmdResult, exec (catOverrideCmd service_name) = Except.ok r → r.ok = true →
      get_service_override_content (Except.ok ()) exec service_name =
        (true, some r.stdout, some (override_file_path_of service_name))) ∧
    (∀ (r1 r2 : CmdResult) (e1 e2 : String → Except String CmdResult),
      r1.ok = false → r2.ok = false →
      e1 (catOverrideCmd service_name) = Except.ok r1 →
      e2 (catOverrideCmd service_name) = Except.ok r2 →
      get_service_override_content (Except.ok ()) e1 service_name =
        get_service_override_content (Except.ok ()) e2 service_name) ∧
    ((get_service_override_content conn exec service_name).1 = false →
      conn.isOk = false ∨ (exec (catOverrideCmd service_name)).isOk = false) := by
  refine ⟨?_, ?_, ?_, ?_⟩
  · intro r hx hr
    simp [get_service_override_content, hx, hr]
  · intro r hx hr
    simp [get_service_override_content, hx, hr]
  · intro r1 r2 e1 e2 h1 h2 hx1 hx2
    simp [get_service_override_content, hx1, hx2, h1, h2]
  · intro hfalse
    cases hc : conn with
    | error e => exact Or.inl (by simp [Except.isOk, Except.toBool, hc])
    | ok u =>
      cases hx : exec (catOverrideCmd service_name) with
      | error e => exact Or.inr (by simp [Except.isOk, Except.toBool, hx])
      | ok r =>
        exfalso
        rw [hc] at hfalse
        simp [get_service_override_content, hx] at hfalse
        cases hr : r.ok <;> simp [hr] at hfalse

/-- C10 witness: a failed read and a successful read at concrete inputs. -/
theorem override_content_read_witness :
    get_service_override_content (Except.ok ())
      (fun _ => Except.ok { ok := false, stdout := "", stderr := "cat: No such file" })
      "my.service" =
      (true, none, some "/etc/systemd/system/my.service.d/override.conf") ∧
    get_service_override_content (Except.ok ())
      (fun _ => Except.ok { ok := true, stdout := "[Service]", stderr := "" })
      "my.service" =
      (true, some "[Service]", some "/etc/systemd/system/my.service.d/override.conf") := by
  refine ⟨?_, ?_⟩
  · rw [(override_content_read (Except.ok ())
      (fun _ => Except.ok { ok := false, stdout := "", stderr := "cat: No such file" })
      "my.service").1 { ok := false, stdout := "", stderr := "cat: No such file" } rfl rfl]
    decide
  · rw [(override_content_read (Except.ok ())
      (fun _ => Except.ok { ok := true, stdout := "[Service]", stderr := "" })
      "my.service").2.1 { ok := true, stdout := "[Service]", stderr := "" } rfl rfl]
    decide

/-! ### C6 -/

/-- C6: a configuration with `create_timer = true` and a null timer
configuration is rejected with a `ValueError` by the request validator, so a
validated request never has that combination; and independently, the SSH
layer never generates a timer file for a config without a timer
configuration — its rendered-file map holds exactly the service file. -/
theorem timer_requires_schedule :
    validate_timer_creation true none =
      Except.error "timer_config is required when create_timer is True" ∧
    (∀ (v : Bool) (tc : Option TimerConfig),
      (validate_timer_creation v tc).isOk = true → ¬(v = true ∧ tc = none)) ∧
    (∀ (c : ServiceConfig) (connOk : Bool) (ce : String)
        (exec : String → CmdResult) (dry : Bool),
      c.timer_config = none →
      (create_systemd_service connOk ce exec c dry).systemd_files =
        (if connOk then [(c.name ++ ".service", generate_systemd_service_file c)]
         else [])) := by
  refine ⟨rfl, ?_, ?_⟩
  · intro v tc hv
    rintro ⟨rfl, rfl⟩
    simp [validate_timer_creation, Except.isOk, Except.toBool] at hv
  · intro c connOk ce exec dry h
    cases connOk with
    | false => simp [create_systemd_service]
    | true =>
      simp [create_systemd_service, h, ite_self, createServiceTail,
        apply_ite CreateServiceResult.systemd_files]

/-- C6 witness: the validator and the no-timer synthesis at concrete
inputs. -/
theorem timer_requires_schedule_witness :
    ¬(false = true ∧ (some jobTimerConfig : Option TimerConfig) = none) ∧
    (create_systemd_service true "" (fun _ => { ok := true, stdout := "", stderr := "" })
        minimalConfig false).systemd_files =
      [("app.service", generate_systemd_service_file minimalConfig)] := by
  refine ⟨?_, ?_⟩
  · exact timer_requires_schedule.2.1 false (some jobTimerConfig) (by decide)
  · rw [timer_requires_schedule.2.2 minimalConfig true ""
      (fun _ => { ok := true, stdout := "", stderr := "" }) false rfl]
    decide

/-! ### C3 -/

/-- C3: with a timer configured, `create_systemd_service` writes the service
file first and the timer file second; if the timer write fails, the
already-written service file is removed (`sudo rm -f`) and the call returns
failure with no created files; if the service write fails, nothing further is
attempted; once both writes succeed the call returns success for every
possible outcome of daemon-reload, enable and start (those commands are
issued afterwards, with enable/start targeting the `.timer` unit, never the
`.service`). -/
theorem create_service_rollback_and_warnings (c : ServiceConfig) (ce : String)
    (exec : String → CmdResult) (tc : TimerConfig) (tcontent : String)
    (h1 : c.create_timer = true) (h2 : c.timer_config = some tc)
    (h3 : generate_systemd_timer_file c.name tc = Except.ok tcontent) :
    ((exec (teeCmd (serviceFilePath c.name) (generate_systemd_service_file c))).ok = false →
      create_systemd_service true ce exec c false =
        { success := false,
          message := "Failed to create service file: "
            ++ (exec (teeCmd (serviceFilePath c.name) (generate_systemd_service_file c))).stderr,
          created_files := [],
          systemd_files := [(c.name ++ ".service", generate_systemd_service_file c),
                            (c.name ++ ".timer", tcontent)],
          issued := [teeCmd (serviceFilePath c.name) (generate_systemd_service_file c)] }) ∧
    ((exec (teeCmd (serviceFilePath c.name) (generate_systemd_service_file c))).ok = true →
      (exec (teeCmd (timerFilePath c.name) tcontent)).ok = false →
      create_systemd_service true ce exec c false =
        { success := false,
          message := "Failed to create timer file: "
            ++ (exec (teeCmd (timerFilePath c.name) tcontent)).stderr,
          created_files := [],
          systemd_files := [(c.name ++ ".service", generate_systemd_service_file c),
                            (c.name ++ ".timer", tcontent)],
          issued := [teeCmd (serviceFilePath c.name) (generate_systemd_service_file c),
                     teeCmd (timerFilePath c.name) tcontent,
                     rmCmd (serviceFilePath c.name)] }) ∧
    ((exec (teeCmd (serviceFilePath c.name) (generate_systemd_service_file c))).ok = true →
      (exec (teeCmd (timerFilePath c.name) tcontent)).ok = true →
      create_systemd_service true ce exec c false =
        { success := true,
          message := "Service " ++ c.name ++ " created successfully",
          created_files := [serviceFilePath c.name, timerFilePath c.name],
          systemd_files := [(c.name ++ ".service", generate_systemd_service_file c),
                            (c.name ++ ".timer", tcontent)],
          issued := [teeCmd (serviceFilePath c.name) (generate_systemd_service_file c),
                     teeCmd (timerFilePath c.name) tcontent,
                     daemonReloadCmd]
            ++ (if c.auto_enable then ["sudo systemctl enable " ++ c.name ++ ".timer"] else [])
            ++ (if c.auto_start then ["sudo systemctl start " ++ c.name ++ ".timer"] else []) }) := by
  refine ⟨?_, ?_, ?_⟩
  · intro hr1
    simp [create_systemd_service, h1, h2, h3, Except.map, hr1]
  · intro hr1 hr2
    simp [create_systemd_service, h1, h2, h3, Except.map, hr1, hr2]
  · intro hr1 hr2
    simp [create_systemd_service, h1, h2, h3, Except.map, hr1, hr2, createServiceTail]

set_option maxRecDepth 8192 in
/-- C3 witness: the rollback branch at a concrete config, with a timer write
that fails while every other command succeeds. -/
theorem create_service_rollback_witness :
    create_systemd_service true ""
      (fun cmd => if cmd = teeCmd (timerFilePath "job") jobTimerContent
        then { ok := false, stdout := "", stderr := "disk full" }
        else { ok := true, stdout := "", stderr := "" })
      jobConfig false =
      { success := false,
        message := "Failed to create timer file: disk full",
        created_files := [],
        systemd_files := [("job.service", generate_systemd_service_file jobConfig),
                          ("job.timer", jobTimerContent)],
        issued := [teeCmd (serviceFilePath "job") (generate_systemd_service_file jobConfig),
                   teeCmd (timerFilePath "job") jobTimerContent,
                   rmCmd (serviceFilePath "job")] } := by
  rw [(create_service_rollback_and_warnings jobConfig ""
      (fun cmd => if cmd = teeCmd (timerFilePath "job") jobTimerContent
        then { ok := false, stdout := "", stderr := "disk full" }
        else { ok := true, stdout := "", stderr := "" })
      jobTimerConfig jobTimerContent rfl rfl (by decide)).2.1 (by decide) (by decide)]
  decide

/-! ### C7 -/

/-- C7 counterexample: `ServiceService.control_service` against a unit whose
host is disabled does not return a `success = false` result object — it
raises a `ValueError` to its caller (which the API layer maps to an HTTP
error); it does issue zero remote commands. -/
theorem control_disabled_host_raises :
    svc_control_service 7 (some managedService) (some disabledServer) true ""
        (fun _ => { ok := true }) "start" =
      (ControlServiceOutcome.raised "Server h1 is disabled", []) ∧
    isRaised (svc_control_service 7 (some managedService) (some disabledServer) true ""
        (fun _ => { ok := true }) "start").1 = true := by
  decide

/-- C7 (amended): a control request against a disabled host, or against an
unmanaged unit, is rejected before any remote call — zero commands are
issued — but the rejection is a raised `ValueError` (`Server <host> is
disabled` / `Service <name> is not managed by Owleyes`), which the API layer
converts to an HTTP 404 error, not a returned result object with
`success = false`. -/
theorem control_policy_gate_raises (sid : Nat) (s : Service) (srv : Server)
    (connOk : Bool) (ce : String) (exec : String → CmdResult) (action : String) :
    (srv.is_enabled = false →
      svc_control_service sid (some s) (some srv) connOk ce exec action =
        (ControlServiceOutcome.raised ("Server " ++ srv.hostname ++ " is disabled"), [])) ∧
    (srv.is_enabled = true → s.is_managed = false →
      svc_control_service sid (some s) (some srv) connOk ce exec action =
        (ControlServiceOutcome.raised
          ("Service " ++ s.name ++ " is not managed by Owleyes"), [])) := by
  constructor
  · intro h
    simp [svc_control_service, h]
  · intro h1 h2
    simp [svc_control_service, h1, h2]

/-- C7 witness: both policy gates at concrete records. -/
theorem control_policy_gate_raises_witness :
    svc_control_service 3 (some unmanagedService) (some enabledServer) true ""
        (fun _ => { ok := true }) "restart" =
      (ControlServiceOutcome.raised "Service web.service is not managed by Owleyes", []) ∧
    svc_control_service 9 (some managedService) (some disabledServer) false "down"
        (fun _ => { ok := false }) "stop" =
      (ControlServiceOutcome.raised "Server h1 is disabled", []) := by
  constructor
  · rw [(control_policy_gate_raises 3 unmanagedService enabledServer true ""
      (fun _ => { ok := true }) "restart").2 rfl rfl]
    decide
  · rw [(control_policy_gate_raises 9 managedService disabledServer false "down"
      (fun _ => { ok := false }) "stop").1 rfl]
    decide

/-! ### C9 -/

/-- C9 counterexample: the reconciliation update does not leave every
non-remote-truth field unchanged — it clears a pre-existing
`status_check_error` and bumps `last_status_check`. -/
theorem discovered_update_not_frame_only :
    staleService.status_check_error = some "probe timeout" ∧
    (apply_discovered_update 42 staleService freshUnit).status_check_error = none ∧
    (apply_discovered_update 42 staleService freshUnit).last_status_check ≠
      staleService.last_status_check := by
  decide

/-- C9 (amended): the update pass overwrites exactly the remote-truth fields
(status, enablement state, description, exec-start, restart policy, unit file
path, load/active/sub state, and the main pid when the discovered one is
present) together with the two bookkeeping fields `last_status_check` (set to
the current time) and `status_check_error` (cleared); every other field —
management flags, display metadata, tags, override configuration, creation
source, timer fields, dependencies, resource usage, stop/reload commands,
metadata — is left unchanged. -/
theorem discovered_update_frame (now : Nat) (s : Service) (d : DiscoveredUnit) :
    (apply_discovered_update now s d).status = d.status ∧
    (apply_discovered_update now s d).state = d.state ∧
    (apply_discovered_update now s d).description = some d.description ∧
    (apply_discovered_update now s d).exec_start = some d.exec_start ∧
    (apply_discovered_update now s d).restart_policy = some d.restart_policy ∧
    (apply_discovered_update now s d).unit_file_path = some d.unit_file_path ∧
    (apply_discovered_update now s d).load_state = some d.load_state ∧
    (apply_discovered_update now s d).active_state = some d.active_state ∧
    (apply_discovered_update now s d).sub_state = some d.sub_state ∧
    (apply_discovered_update now s d).main_pid = d.main_pid.or s.main_pid ∧
    (apply_discovered_update now s d).last_status_check = some now ∧
    (apply_discovered_update now s d).status_check_error = none ∧
    (apply_discovered_update now s d).id = s.id ∧
    (apply_discovered_update now s d).server_id = s.server_id ∧
    (apply_discovered_update now s d).name = s.name ∧
    (apply_discovered_update now s d).display_name = s.display_name ∧
    (apply_discovered_update now s d).service_type = s.service_type ∧
    (apply_discovered_update now s d).exec_reload = s.exec_reload ∧
    (apply_discovered_update now s d).exec_stop = s.exec_stop ∧
    (apply_discovered_update now s d).dependencies = s.dependencies ∧
    (apply_discovered_update now s d).dependents = s.dependents ∧
    (apply_discovered_update now s d).conflicts = s.conflicts ∧
    (apply_discovered_update now s d).is_timer = s.is_timer ∧
    (apply_discovered_update now s d).timer_schedule = s.timer_schedule ∧
    (apply_discovered_update now s d).next_activation = s.next_activation ∧
    (apply_discovered_update now s d).last_activation = s.last_activation ∧
    (apply_discovered_update now s d).cpu_usage_percent = s.cpu_usage_percent ∧
    (apply_discovered_update now s d).memory_usage_mb = s.memory_usage_mb ∧
    (apply_discovered_update now s d).memory_limit_mb = s.memory_limit_mb ∧
    (apply_discovered_update now s d).started_at = s.started_at ∧
    (apply_discovered_update now s d).active_duration_seconds = s.active_duration_seconds ∧
    (apply_discovered_update now s d).auto_restart = s.auto_restart ∧
    (apply_discovered_update now s d).environment_variables = s.environment_variables ∧
    (apply_discovered_update now s d).service_config = s.service_config ∧
    (apply_discovered_update now s d).override_config = s.override_config ∧
    (apply_discovered_update now s d).is_managed = s.is_managed ∧
    (apply_discovered_update now s d).is_monitored = s.is_monitored ∧
    (apply_discovered_update now s d).tags = s.tags ∧
    (apply_discovered_update now s d).extra_data = s.extra_data ∧
    (apply_discovered_update now s d).creation_source = s.creation_source ∧
    (apply_discovered_update now s d).is_custom_created = s.is_custom_created ∧
    (apply_discovered_update now s d).timer_file_path = s.timer_file_path := by
  cases hmp : d.main_pid <;>
    simp [apply_discovered_update, update_status, Option.or, hmp]

/-! ### C2 -/

/-- C2 counterexample: when the remote unit-listing command runs but exits
non-ok, `discover_services` does not raise a `ConnectionError` — it returns
the normal result `ok []`, indistinguishable from a host that genuinely
reported no units. -/
theorem discovery_nonok_listing_returns_empty :
    discover_services_ssh (Except.ok ())
      (Except.ok { ok := false, stdout := "", stderr := "Failed to connect to bus" })
      (fun _ => none) (Except.ok { ok := true, stdout := "", stderr := "" })
      (fun _ => none) = Except.ok [] ∧
    (discover_services_ssh (Except.ok ())
      (Except.ok { ok := false, stdout := "", stderr := "Failed to connect to bus" })
      (fun _ => none) (Except.ok { ok := true, stdout := "", stderr := "" })
      (fun _ => none)).isOk = true := by
  decide

/-- C2 (amended): only transport-level failures raise — a session-acquisition
failure or a raised command exception surfaces as a `ConnectionError`
(`Failed to discover services: ...`); a listing command that runs and exits
non-ok instead returns an empty successful unit list, so an empty result does
not imply the host reported no matching units. -/
theorem discovery_failure_modes (conn : Except String Unit)
    (listCmd : Except String CmdResult)
    (parseJson : String → Option (List UnitRow))
    (fallbackList : Except String CmdResult)
    (detail : String → Option DiscoveredUnit) :
    (∀ e, conn = Except.error e →
      discover_services_ssh conn listCmd parseJson fallbackList detail =
        Except.error ("Failed to discover services: " ++ e)) ∧
    (∀ e, conn = Except.ok () → listCmd = Except.error e →
      discover_services_ssh conn listCmd parseJson fallbackList detail =
        Except.error ("Failed to discover services: " ++ e)) ∧
    (∀ r : CmdResult, conn = Except.ok () → listCmd = Except.ok r → r.ok = false →
      discover_services_ssh conn listCmd parseJson fallbackList detail = Except.ok []) := by
  refine ⟨?_, ?_, ?_⟩
  · intro e h
    simp [discover_services_ssh, h]
  · intro e h1 h2
    simp [discover_services_ssh, h1, h2]
  · intro r h1 h2 h3
    simp [discover_services_ssh, h1, h2, h3]

/-- C2 witness: a transport failure raising and a non-ok listing returning
empty, at concrete inputs. -/
theorem discovery_failure_modes_witness :
    discover_services_ssh (Except.error "Authentication failed")
      (Except.ok { ok := true, stdout := "", stderr := "" })
      (fun _ => none) (Except.ok { ok := true, stdout := "", stderr := "" })
      (fun _ => none) =
      Except.error "Failed to discover services: Authentication failed" ∧
    discover_services_ssh (Except.ok ())
      (Except.ok { ok := false, stdout := "", stderr := "boom" })
      (fun _ => none) (Except.ok { ok := true, stdout := "", stderr := "" })
      (fun _ => none) = Except.ok [] := by
  constructor
  · rw [(discovery_failure_modes (Except.error "Authentication failed")
      (Except.ok { ok := true, stdout := "", stderr := "" })
      (fun _ => none) (Except.ok { ok := true, stdout := "", stderr := "" })
      (fun _ => none)).1 "Authentication failed" rfl]
    decide
  · exact (discovery_failure_modes (Except.ok ())
      (Except.ok { ok := false, stdout := "", stderr := "boom" })
      (fun _ => none) (Except.ok { ok := true, stdout := "", stderr := "" })
      (fun _ => none)).2.2 { ok := false, stdout := "", stderr := "boom" } rfl rfl rfl

/-! ### C1 — supporting lemmas about the reconciliation pass -/

/-- `apply_discovered_update` never changes a record's name. -/
theorem apply_discovered_update_name (now : Nat) (s : Service) (d : DiscoveredUnit) :
    (apply_discovered_update now s d).name = s.name := rfl

/-- `apply_discovered_update` never changes a record's service type. -/
theorem apply_discovered_update_service_type (now : Nat) (s : Service) (d : DiscoveredUnit) :
    (apply_discovered_update now s d).service_type = s.service_type := rfl

/-- The removal condition only looks at the name and type, both of which an
in-place update preserves. -/
theorem removable_apply_discovered_update (dn : List String) (now : Nat)
    (s : Service) (d : DiscoveredUnit) :
    removable dn (apply_discovered_update now s d) = removable dn s := rfl

/-- Updating the first name-match does not change which names occur. -/
theorem update_first_any (now : Nat) (d : DiscoveredUnit) (x : String) :
    ∀ l : List Service,
      (update_first now d l).any (fun s => s.name == x) = l.any (fun s => s.name == x) := by
  intro l
  induction l with
  | nil => rfl
  | cons s rest ih =>
    by_cases h : s.name = d.name
    · simp [update_first, h, apply_discovered_update_name]
    · simp [update_first, h, ih]

/-- Updating the first name-match does not change the removable count. -/
theorem update_first_removable_count (now : Nat) (d : DiscoveredUnit) (dn : List String) :
    ∀ l : List Service,
      (update_first now d l).countP (removable dn) = l.countP (removable dn) := by
  intro l
  induction l with
  | nil => rfl
  | cons s rest ih =>
    by_cases h : s.name = d.name
    · simp [update_first, h, List.countP_cons, removable_apply_discovered_update]
    · simp [update_first, h, List.countP_cons, ih]

/-- A record whose name differs from the discovered unit's survives
`update_first` untouched. -/
theorem update_first_mem (now : Nat) (d : DiscoveredUnit) (s : Service)
    (h : s.name ≠ d.name) : ∀ l : List Service, s ∈ l → s ∈ update_first now d l := by
  intro l
  induction l with
  | nil => intro hx; exact absurd hx (List.not_mem_nil s)
  | cons t rest ih =>
    intro hx
    by_cases ht : t.name = d.name
    · simp only [update_first, ht, if_pos]
      rcases List.mem_cons.mp hx with rfl | hmem
      · exact absurd ht h
      · exact List.mem_cons_of_mem _ hmem
    · simp only [update_first, ht, if_neg, ite_false]
      rcases List.mem_cons.mp hx with rfl | hmem
      · exact List.mem_cons_self _ _
      · exact List.mem_cons_of_mem _ (ih hmem)

/-- The add-or-update loop counts and creates exactly by presence of the
discovered name among the current records. -/
theorem update_phase_counts (now sid : Nat) :
    ∀ (D : List DiscoveredUnit) (cur : List Service),
      (update_phase now sid cur D).discovered =
          D.countP (fun d => !(cur.any (fun s => s.name == d.name))) ∧
        (update_phase now sid cur D).updated =
          D.countP (fun d => cur.any (fun s => s.name == d.name)) ∧
        (update_phase now sid cur D).created =
          (D.filter (fun d => !(cur.any (fun s => s.name == d.name)))).map
            (mk_discovered_service sid now) := by
  intro D
  induction D with
  | nil => intro cur; simp [update_phase]
  | cons d ds ih =>
    intro cur
    by_cases hb : cur.any (fun s => s.name == d.name)
    · have ihc := ih (update_first now d cur)
      have hcong : ∀ d' : DiscoveredUnit,
          ((update_first now d cur).any (fun s => s.name == d'.name)) =
            (cur.any (fun s => s.name == d'.name)) := fun d' => update_first_any now d d'.name cur
      have hd : List.countP
            (fun d1 : DiscoveredUnit => !((update_first now d cur).any fun s => s.name == d1.name)) ds
          = List.countP (fun d1 : DiscoveredUnit => !(cur.any fun s => s.name == d1.name)) ds :=
        List.countP_congr (fun a _ => by rw [hcong a])
      have hu : List.countP
            (fun d1 : DiscoveredUnit => (update_first now d cur).any fun s => s.name == d1.name) ds
          = List.countP (fun d1 : DiscoveredUnit => cur.any fun s => s.name == d1.name) ds :=
        List.countP_congr (fun a _ => by rw [hcong a])
      have hf : List.filter
            (fun d1 : DiscoveredUnit => !((update_first now d cur).any fun s => s.name == d1.name)) ds
          = List.filter (fun d1 : DiscoveredUnit => !(cur.any fun s => s.name == d1.name)) ds :=
        List.filter_congr (fun a _ => by rw [hcong a])
      refine ⟨?_, ?_, ?_⟩
      · rw [show (update_phase now sid cur (d :: ds)).discovered =
            (update_phase now sid (update_first now d cur) ds).discovered by
          simp [update_phase, hb]]
        rw [ihc.1, hd, List.countP_cons]
        simp [hb]
      · rw [show (update_phase now sid cur (d :: ds)).updated =
            (update_phase now sid (update_first now d cur) ds).updated + 1 by
          simp [update_phase, hb]]
        rw [ihc.2.1, hu, List.countP_cons]
        simp [hb]
      · rw [show (update_phase now sid cur (d :: ds)).created =
            (update_phase now sid (update_first now d cur) ds).created by
          simp [update_phase, hb]]
        rw [ihc.2.2, hf, List.filter_cons]
        simp [hb]
    · have ihc := ih cur
      refine ⟨?_, ?_, ?_⟩
      · rw [show (update_phase now sid cur (d :: ds)).discovered =
            (update_phase now sid cur ds).discovered + 1 by
          simp [update_phase, hb]]
        rw [ihc.1, List.countP_cons]
        simp [hb]
      · rw [show (update_phase now sid cur (d :: ds)).updated =
            (update_phase now sid cur ds).updated by
          simp [update_phase, hb]]
        rw [ihc.2.1, List.countP_cons]
        simp [hb]
      · rw [show (update_phase now sid cur (d :: ds)).created =
            mk_discovered_service sid now d :: (update_phase now sid cur ds).created by
          simp [update_phase, hb]]
        rw [ihc.2.2, List.filter_cons]
        simp [hb]

/-- The add-or-update loop does not change the removable count of the
current records. -/
theorem update_phase_removable_count (now sid : Nat) (dn : List String) :
    ∀ (D : List DiscoveredUnit) (cur : List Service),
      (update_phase now sid cur D).cur.countP (removable dn) =
        cur.countP (removable dn) := by
  intro D
  induction D with
  | nil => intro cur; rfl
  | cons d ds ih =>
    intro cur
    by_cases hb : cur.any (fun s => s.name == d.name)
    · have h1 : (update_phase now sid cur (d :: ds)).cur =
          (update_phase now sid (update_first now d cur) ds).cur := by
        simp [update_phase, hb]
      rw [h1, ih (update_first now d cur), update_first_removable_count]
    · have h1 : (update_phase now sid cur (d :: ds)).cur =
          (update_phase now sid cur ds).cur := by
        simp [update_phase, hb]
      rw [h1, ih cur]

/-- A record matching no discovered name survives the add-or-update loop
untouched. -/
theorem update_phase_mem (now sid : Nat) (s : Service) :
    ∀ (D : List DiscoveredUnit) (cur : List Service), s ∈ cur →
      (∀ d ∈ D, s.name ≠ d.name) → s ∈ (update_phase now sid cur D).cur := by
  intro D
  induction D with
  | nil => intro cur hs _; exact hs
  | cons d ds ih =>
    intro cur hs hnames
    by_cases hb : cur.any (fun s => s.name == d.name)
    · have h1 : (update_phase now sid cur (d :: ds)).cur =
          (update_phase now sid (update_first now d cur) ds).cur := by
        simp [update_phase, hb]
      rw [h1]
      exact ih (update_first now d cur)
        (update_first_mem now d s (hnames d (List.mem_cons_self d ds)) cur hs)
        (fun d' hd' => hnames d' (List.mem_cons_of_mem d hd'))
    · have h1 : (update_phase now sid cur (d :: ds)).cur =
          (update_phase now sid cur ds).cur := by
        simp [update_phase, hb]
      rw [h1]
      exact ih cur hs (fun d' hd' => hnames d' (List.mem_cons_of_mem d hd'))

/-- The removal loop deletes exactly the removable records and counts them. -/
theorem remove_phase_spec (dn : List String) :
    ∀ l : List Service,
      remove_phase dn l =
        (l.filter (fun s => !(removable dn s)), l.countP (removable dn)) := by
  intro l
  induction l with
  | nil => rfl
  | cons s rest ih =>
    by_cases h : removable dn s
    · simp [remove_phase, ih, h, List.filter_cons, List.countP_cons]
    · simp [remove_phase, ih, h, List.filter_cons, List.countP_cons]

/-- A predicate and its negation count every element exactly once. -/
theorem countP_not_add (p : DiscoveredUnit → Bool) :
    ∀ l : List DiscoveredUnit,
      l.countP (fun a => !(p a)) + l.countP p = l.length := by
  intro l
  induction l with
  | nil => rfl
  | cons a t ih =>
    by_cases h : p a <;>
      simp [List.countP_cons, h, ← ih] <;> omega

/-! ### C1 -/

/-- C1 counterexample: the delete rule does not exempt units created by
explicit deployment — a systemd-typed record with creation source
`"created"` that is absent from the fresh discovery is deleted and counted,
while the claim's delete-set (requiring creation source `"discovered"`) is
empty. -/
theorem discover_pass_deletes_created_unit :
    createdOrphan.creation_source = some "created" ∧
    specDeleteSet [createdOrphan] [] = [] ∧
    (discover_pass 0 1 [createdOrphan] []).services_removed = 1 ∧
    (discover_pass 0 1 [createdOrphan] []).final = [] := by
  decide

/-- C1 (amended): the discovery pass creates exactly the discovered units
whose name is absent locally (each such unit's fresh record is in the final
set), updates in place exactly the discovered units present locally, and
deletes exactly the local units of systemd type whose name is absent from
the discovery — regardless of creation source, so explicitly deployed
systemd units absent from discovery are deleted too; local units of
non-systemd type absent from discovery are left untouched; the reported
discovered/updated/removed counts equal the sizes of these sets and
discovered + updated = |D|. -/
theorem discover_reconciliation (now sid : Nat) (L : List Service)
    (D : List DiscoveredUnit) :
    (discover_pass now sid L D).services_discovered =
      D.countP (fun d => !(L.any (fun s => s.name == d.name))) ∧
    (discover_pass now sid L D).services_updated =
      D.countP (fun d => L.any (fun s => s.name == d.name)) ∧
    (discover_pass now sid L D).services_discovered +
      (discover_pass now sid L D).services_updated = D.length ∧
    (discover_pass now sid L D).services_removed =
      L.countP (removable (D.map (fun d => d.name))) ∧
    (∀ s ∈ L, s.service_type ≠ ServiceType.systemd →
      (D.map (fun d => d.name)).contains s.name = false →
      s ∈ (discover_pass now sid L D).final) ∧
    (∀ d ∈ D, L.any (fun s => s.name == d.name) = false →
      mk_discovered_service sid now d ∈ (discover_pass now sid L D).final) := by
  have hc := update_phase_counts now sid D L
  refine ⟨?_, ?_, ?_, ?_, ?_, ?_⟩
  · simpa [discover_pass] using hc.1
  · simpa [discover_pass] using hc.2.1
  · have h1 : (discover_pass now sid L D).services_discovered =
        D.countP (fun d => !(L.any (fun s => s.name == d.name))) := by
      simpa [discover_pass] using hc.1
    have h2 : (discover_pass now sid L D).services_updated =
        D.countP (fun d => L.any (fun s => s.name == d.name)) := by
      simpa [discover_pass] using hc.2.1
    rw [h1, h2]
    exact countP_not_add _ D
  · simp only [discover_pass]
    rw [remove_phase_spec]
    simpa using update_phase_removable_count now sid (D.map (fun d => d.name)) D L
  · intro s hs htype hcont
    have hnames : ∀ d ∈ D, s.name ≠ d.name := by
      intro d hd heq
      have hmemname : s.name ∈ D.map (fun d => d.name) :=
        List.mem_map.mpr ⟨d, hd, heq.symm⟩
      have : ¬ (s.name ∈ D.map (fun d => d.name)) := by simpa using hcont
      exact this hmemname
    have hmem := update_phase_mem now sid s D L hs hnames
    have hrem : removable (D.map (fun d => d.name)) s = false := by
      simp [removable, htype]
    simp only [discover_pass]
    rw [remove_phase_spec]
    refine List.mem_append.mpr (Or.inl ?_)
    exact List.mem_filter.mpr ⟨hmem, by simp [hrem]⟩
  · intro d hd hno
    have hfilt : d ∈ D.filter (fun d => !(L.any (fun s => s.name == d.name))) :=
      List.mem_filter.mpr ⟨hd, by simp [hno]⟩
    have hmk : mk_discovered_service sid now d ∈ (update_phase now sid L D).created := by
      rw [hc.2.2]
      exact List.mem_map_of_mem _ hfilt
    simp only [discover_pass]
    exact List.mem_append.mpr (Or.inr hmk)

/-- C1 witness: the characterization at a two-unit local set (one systemd
unit that is re-discovered, one custom-typed unit that is not) against a
two-unit discovery (the re-discovered unit and a brand-new one). -/
theorem discover_reconciliation_witness :
    (discover_pass 5 1 [staleService, customUnit] [freshUnit, newUnit]).services_discovered = 1 ∧
    (discover_pass 5 1 [staleService, customUnit] [freshUnit, newUnit]).services_updated = 1 ∧
    (discover_pass 5 1 [staleService, customUnit] [freshUnit, newUnit]).services_removed = 0 ∧
    customUnit ∈ (discover_pass 5 1 [staleService, customUnit] [freshUnit, newUnit]).final ∧
    mk_discovered_service 1 5 newUnit ∈
      (discover_pass 5 1 [staleService, customUnit] [freshUnit, newUnit]).final := by
  have h := discover_reconciliation 5 1 [staleService, customUnit] [freshUnit, newUnit]
  refine ⟨?_, ?_, ?_, ?_, ?_⟩
  · rw [h.1]; decide
  · rw [h.2.1]; decide
  · rw [h.2.2.2.1]; decide
  · exact h.2.2.2.2.1 customUnit (by decide) (by decide) (by decide)
  · exact h.2.2.2.2.2 newUnit (by decide) (by decide)

end DaemonAdmin
